import Mathlib

/-!
Shallow embedding of the tilli_lite billing portal (models.py, routes.py, app.py).

Monetary amounts (Python floats in the source) are modelled as exact rationals
(ℚ); none of the verified properties depends on binary floating-point rounding,
and the 0.01 tolerance of the settlement logic is represented exactly.
Wall-clock timestamps that SQLAlchemy fills in by default (`transaction_date`,
`timestamp`, `issue_date` defaults) are passed as explicit `Nat` parameters or
omitted when no claim mentions them.  The database session is modelled as an
explicit record of lists, one per table, appended in commit order.
-/

/-- Renders a rational amount for the simulated message bodies.  The Python
source uses the f-string formatter; here the exact rational is printed
instead, since no property depends on the decimal rendering. -/
def money (q : ℚ) : String :=
  toString q.num ++ "/" ++ toString q.den

/-- models.py `Account`: primary customer service information. -/
structure Account where
  id : Nat
  account_number : String
  full_name : String
  billing_address : String
  comm_preference : String
deriving DecidableEq

/-- models.py `User`: authentication record linked to an account. -/
structure User where
  id : Nat
  username : String
  email : String
  password_hash : String
  role : String
  account_id : Nat
deriving DecidableEq

/-- models.py `Bill`: original amount, remaining balance and status. -/
structure Bill where
  id : Nat
  account_id : Nat
  original_amount : ℚ
  amount_due : ℚ
  issue_date : Nat
  due_date : Nat
  status : String
deriving DecidableEq

/-- models.py `PaymentTransaction`: one row per simulated payment attempt. -/
structure PaymentTransaction where
  bill_id : Nat
  account_id : Nat
  amount_paid : ℚ
  payment_method : String
  status : String
deriving DecidableEq

/-- models.py `CommunicationLog`: one row per simulated outbound message. -/
structure CommunicationLog where
  account_id : Nat
  trigger_event : String
  channel : String
  message_body : String
deriving DecidableEq

/-- models.py `Request`: customer service ticket. -/
structure Request where
  account_id : Nat
  request_type : String
  description : String
  status : String
deriving DecidableEq

/-- The database session: one list per table, in insertion order. -/
structure DBState where
  accounts : List Account
  users : List User
  bills : List Bill
  transactions : List PaymentTransaction
  comm_logs : List CommunicationLog
  requests : List Request
deriving DecidableEq

/-- The empty database produced by `db.create_all()` (db_setup.py). -/
def emptyState : DBState :=
  { accounts := [], users := [], bills := [], transactions := [],
    comm_logs := [], requests := [] }

/-- `Bill.query.get(bill_id)`: primary-key lookup. -/
def getBill (s : DBState) (bill_id : Nat) : Option Bill :=
  s.bills.find? (fun b => b.id == bill_id)

/-- Fresh primary key for a new bill (autoincrement). -/
def freshBillId (s : DBState) : Nat :=
  (s.bills.map Bill.id).foldr max 0 + 1

/-- Fresh primary key for a new account (autoincrement). -/
def freshAccountId (s : DBState) : Nat :=
  (s.accounts.map Account.id).foldr max 0 + 1

/-- Fresh primary key for a new user (autoincrement). -/
def freshUserId (s : DBState) : Nat :=
  (s.users.map User.id).foldr max 0 + 1

/-- routes.py `simulate_payment_and_nudge` (lines 27–73).  Looks the bill up
by primary key; on a miss returns `false` with the session untouched.
Otherwise records a `PaymentTransaction` with status `"Success"`, subtracts
the amount from `amount_due`, sets the status to `"Paid"` (with the balance
forced to exactly 0) when the remainder is within the 0.01 tolerance and to
`"Partial"` otherwise, and appends one `CommunicationLog` on the account's
preferred channel. -/
def simulate_payment_and_nudge (s : DBState) (bill_id : Nat) (account : Account)
    (amount : ℚ) (method : String) : Bool × DBState :=
  match getBill s bill_id with
  | none => (false, s)
  | some bill =>
    let transaction : PaymentTransaction :=
      { bill_id := bill_id, account_id := account.id, amount_paid := amount,
        payment_method := method, status := "Success" }
    let new_due : ℚ := bill.amount_due - amount
    let result :=
      if new_due ≤ 1/100 then
        ({ bill with amount_due := 0, status := "Paid" },
         "Payment Success - Full",
         "Your full payment of $" ++ money amount ++ " for Bill #" ++
           toString bill.id ++
           " has been processed. Account balance is now $0.00. Thank you!")
      else
        ({ bill with amount_due := new_due, status := "Partial" },
         "Payment Success - Partial",
         "Your partial payment of $" ++ money amount ++
           " has been processed. Remaining balance: $" ++ money new_due ++ ".")
    let comm_log : CommunicationLog :=
      { account_id := account.id, trigger_event := result.2.1,
        channel := account.comm_preference, message_body := result.2.2 }
    (true,
     { s with
        bills := s.bills.map (fun b => if b.id == bill_id then result.1 else b),
        transactions := s.transactions ++ [transaction],
        comm_logs := s.comm_logs ++ [comm_log] })

/-- routes.py `nudge_new_bill` (lines 75–86): appends one `CommunicationLog`
for a freshly created bill on the account's preferred channel. -/
def nudge_new_bill (s : DBState) (account : Account) (bill : Bill)
    (admin_username : String) : DBState :=
  let message :=
    "A new bill (ID: " ++ toString bill.id ++ ") of $" ++
      money bill.original_amount ++
      " has been issued with a due date of " ++ toString bill.due_date ++
      ". Created by Admin: " ++ admin_username ++ ". View and pay now!"
  { s with
      comm_logs := s.comm_logs ++
        [{ account_id := account.id, trigger_event := "New Bill Issued",
           channel := account.comm_preference, message_body := message }] }

/-- routes.py `admin_create_bill` (lines 325–362), the part after form
validation: look the account up by account number; on a miss re-render with
the session untouched, otherwise insert a new bill whose `amount_due` starts
at `original_amount` with status `"Unpaid"`, then trigger `nudge_new_bill`. -/
def admin_create_bill (s : DBState) (account_num : String) (original_amount : ℚ)
    (due_date : Nat) (admin_username : String) (now : Nat) : DBState :=
  match s.accounts.find? (fun a => a.account_number == account_num) with
  | none => s
  | some account =>
    let new_bill : Bill :=
      { id := freshBillId s, account_id := account.id,
        original_amount := original_amount, amount_due := original_amount,
        issue_date := now, due_date := due_date, status := "Unpaid" }
    let s1 := { s with bills := s.bills ++ [new_bill] }
    nudge_new_bill s1 account new_bill admin_username

/-- Zero-padding to six digits, as in the Python format spec `:06`. -/
def pad6 (n : Nat) : String :=
  let s := toString n
  String.mk (List.replicate (6 - s.length) '0') ++ s

/-- `Account.query.order_by(Account.id.desc()).first()`: the account with the
largest primary key. -/
def lastAccount (s : DBState) : Option Account :=
  s.accounts.foldl
    (fun acc a =>
      match acc with
      | none => some a
      | some b => if b.id ≤ a.id then some a else some b)
    none

/-- routes.py `register` (lines 119–120): the next account number is derived
from the numeric suffix of the most recently created account's number,
zero-padded to six digits; `A-000001` when no account exists yet. -/
def nextAccountNumber (s : DBState) : String :=
  match lastAccount s with
  | none => "A-000001"
  | some last =>
    let n := ((((last.account_number.splitOn "-").getD 1 "").toNat?).getD 0)
    "A-" ++ pad6 (n + 1)

/-- routes.py `register` (lines 110–149), the part after form validation:
creates a new account with address `"Pending Setup"` and preference
`"Email"`, then a customer user linked to it.  The password hash produced by
`generate_password_hash` is passed in as an opaque string. -/
def register (s : DBState) (username email full_name password_hash : String) :
    DBState :=
  let account : Account :=
    { id := freshAccountId s, account_number := nextAccountNumber s,
      full_name := full_name, billing_address := "Pending Setup",
      comm_preference := "Email" }
  let user : User :=
    { id := freshUserId s, username := username, email := email,
      password_hash := password_hash, role := "customer",
      account_id := account.id }
  { s with accounts := s.accounts ++ [account], users := s.users ++ [user] }

/-- routes.py `profile` (lines 204–223), the part after form validation:
overwrites the current account's name, address and communication
preference. -/
def update_profile (s : DBState) (account_id : Nat)
    (full_name billing_address comm_preference : String) : DBState :=
  { s with
      accounts := s.accounts.map (fun a =>
        if a.id == account_id then
          { a with full_name := full_name, billing_address := billing_address,
                   comm_preference := comm_preference }
        else a) }

/-- routes.py `submit_request` (lines 226–247), the part after form
validation: appends a service request with status `"New"`. -/
def submit_request (s : DBState) (account_id : Nat)
    (request_type description : String) : DBState :=
  { s with
      requests := s.requests ++
        [{ account_id := account_id, request_type := request_type,
           description := description, status := "New" }] }

/-- app.py `setup_demo_data` (lines 45–126): seeds the demo customer and
admin accounts/users and three mock bills, unless the demo customer already
exists.  Dates are day offsets from the `now` parameter; password hashes are
opaque parameters. -/
def setup_demo_data (s : DBState) (hash1 hash2 : String) (now : Nat) :
    DBState :=
  if (s.users.find? (fun u => u.username == "demo_customer")).isSome then s
  else
    let customer_account : Account :=
      { id := freshAccountId s, account_number := "A-948102",
        full_name := "Alex Johnson",
        billing_address := "123 Synergy Way, McLean, VA 22102",
        comm_preference := "Email" }
    let s1 := { s with accounts := s.accounts ++ [customer_account] }
    let customer_user : User :=
      { id := freshUserId s1, username := "demo_customer",
        email := "alex@example.com", password_hash := hash1,
        role := "customer", account_id := customer_account.id }
    let admin_account : Account :=
      { id := freshAccountId s1, account_number := "A-000000",
        full_name := "System Administrator",
        billing_address := "999 Backend Ave", comm_preference := "None" }
    let s2 :=
      { s1 with users := s1.users ++ [customer_user],
                accounts := s1.accounts ++ [admin_account] }
    let admin_user : User :=
      { id := freshUserId s2, username := "admin", email := "admin@tilliX.com",
        password_hash := hash2, role := "admin",
        account_id := admin_account.id }
    let s3 := { s2 with users := s2.users ++ [admin_user] }
    let bill1 : Bill :=
      { id := freshBillId s3, account_id := customer_account.id,
        original_amount := 311/2, amount_due := 311/2,
        issue_date := now - 30, due_date := now - 10, status := "Unpaid" }
    let bill2 : Bill :=
      { id := freshBillId s3 + 1, account_id := customer_account.id,
        original_amount := 210, amount_due := 210,
        issue_date := now, due_date := now + 20, status := "Unpaid" }
    let paid_bill : Bill :=
      { id := freshBillId s3 + 2, account_id := customer_account.id,
        original_amount := 100, amount_due := 0,
        issue_date := now - 60, due_date := now - 40, status := "Paid" }
    { s3 with bills := s3.bills ++ [bill1, bill2, paid_bill] }

/-- Outcome of the customer payment route. -/
inductive PayResult
  | notFound
  | accessDenied
  | alreadyPaid
  | invalidAmount
  | success
  | internalError
deriving DecidableEq

/-- routes.py `pay_bill` (lines 269–304), the part after login and form
validation: 404 on a missing bill, refuse a bill of another account, refuse a
bill already `"Paid"`, refuse an amount outside (0, amount_due], and
otherwise run `simulate_payment_and_nudge`. -/
def pay_bill (s : DBState) (account : Account) (bill_id : Nat) (amount : ℚ)
    (method : String) : PayResult × DBState :=
  match getBill s bill_id with
  | none => (.notFound, s)
  | some bill =>
    if bill.account_id ≠ account.id then (.accessDenied, s)
    else if bill.status = "Paid" then (.alreadyPaid, s)
    else if amount ≤ 0 ∨ bill.amount_due < amount then (.invalidAmount, s)
    else
      let r := simulate_payment_and_nudge s bill_id account amount method
      if r.1 then (.success, r.2) else (.internalError, r.2)

/-- The state-changing entry points of the program: the four mutating routes
(after their form validation) and the demo-data CLI command. -/
inductive Op
  | registerOp (username email full_name password_hash : String)
  | updateProfileOp (account_id : Nat)
      (full_name billing_address comm_preference : String)
  | submitRequestOp (account_id : Nat) (request_type description : String)
  | payBillOp (account : Account) (bill_id : Nat) (amount : ℚ) (method : String)
  | adminCreateBillOp (account_num : String) (original_amount : ℚ)
      (due_date : Nat) (admin_username : String) (now : Nat)
  | setupDemoDataOp (hash1 hash2 : String) (now : Nat)

/-- Executes one entry point against the database state. -/
def applyOp (s : DBState) : Op → DBState
  | .registerOp u e f p => register s u e f p
  | .updateProfileOp a f b c => update_profile s a f b c
  | .submitRequestOp a t d => submit_request s a t d
  | .payBillOp acct bid amt m => (pay_bill s acct bid amt m).2
  | .adminCreateBillOp an oa dd au now => admin_create_bill s an oa dd au now
  | .setupDemoDataOp h1 h2 now => setup_demo_data s h1 h2 now

/-- What WTForms guarantees before a route body runs: `AdminBillForm`
validates `original_amount` with `NumberRange(min=0.01)` (forms.py line 85).
The other entry points need no arithmetic precondition. -/
def opFormValidated : Op → Prop
  | .adminCreateBillOp _ oa _ _ _ => 1/100 ≤ oa
  | _ => True

/-- Status of the bill with the given id, if any. -/
def billStatus (s : DBState) (bill_id : Nat) : Option String :=
  (getBill s bill_id).map Bill.status

/-- Remaining balance of the bill with the given id, if any. -/
def billDue (s : DBState) (bill_id : Nat) : Option ℚ :=
  (getBill s bill_id).map Bill.amount_due

/-- Every bill in the database has a non-negative remaining balance. -/
def billsNonneg (s : DBState) : Prop :=
  ∀ b ∈ s.bills, 0 ≤ b.amount_due

/-- The bill update performed by `simulate_payment_and_nudge` once the bill
is found (routes.py lines 49–61), factored out for reasoning. -/
def settleBill (b : Bill) (amount : ℚ) : Bill :=
  if b.amount_due - amount ≤ 1/100 then
    { b with amount_due := 0, status := "Paid" }
  else
    { b with amount_due := b.amount_due - amount, status := "Partial" }

/-- The communication trigger event chosen by `simulate_payment_and_nudge`. -/
def settleEvent (b : Bill) (amount : ℚ) : String :=
  if b.amount_due - amount ≤ 1/100 then "Payment Success - Full"
  else "Payment Success - Partial"

/-- The message body chosen by `simulate_payment_and_nudge`. -/
def settleMsg (b : Bill) (amount : ℚ) : String :=
  if b.amount_due - amount ≤ 1/100 then
    "Your full payment of $" ++ money amount ++ " for Bill #" ++
      toString b.id ++
      " has been processed. Account balance is now $0.00. Thank you!"
  else
    "Your partial payment of $" ++ money amount ++
      " has been processed. Remaining balance: $" ++
      money (b.amount_due - amount) ++ "."

/-- A concrete demo account, matching the seeded customer. -/
def acctDemo : Account :=
  { id := 1, account_number := "A-948102", full_name := "Alex Johnson",
    billing_address := "123 Synergy Way, McLean, VA 22102",
    comm_preference := "Email" }

/-- A concrete open bill of 100 dollars for the demo account. -/
def billDemo : Bill :=
  { id := 1, account_id := 1, original_amount := 100, amount_due := 100,
    issue_date := 0, due_date := 30, status := "Unpaid" }

/-- A concrete database holding the demo account and its open bill. -/
def stateDemo : DBState :=
  { emptyState with accounts := [acctDemo], bills := [billDemo] }

/-! ## General lemmas about the settlement logic -/

/-- Rewriting exactly the matching elements of a list moves what `find?`
returns to the replacement, provided the replacement still matches. -/
theorem find?_map_update {α : Type} (p : α → Bool) (c : α) (hc : p c = true) :
    ∀ l : List α, (l.find? p).isSome = true →
      (l.map (fun x => if p x then c else x)).find? p = some c := by
  intro l
  induction l with
  | nil => intro h; simp [List.find?] at h
  | cons a t ih =>
    intro h
    by_cases hp : p a = true
    · rw [List.map_cons, if_pos hp, List.find?_cons_of_pos _ hc]
    · rw [List.find?_cons_of_neg _ hp] at h
      rw [List.map_cons, if_neg hp, List.find?_cons_of_neg _ hp]
      exact ih h

/-- Settling never changes the bill's primary key. -/
theorem settleBill_id (b : Bill) (a : ℚ) : (settleBill b a).id = b.id := by
  unfold settleBill
  split <;> rfl

/-- Closed form of `simulate_payment_and_nudge` when the bill exists. -/
theorem simulate_found (s : DBState) (bid : Nat) (acct : Account) (a : ℚ)
    (m : String) (b : Bill) (hb : getBill s bid = some b) :
    simulate_payment_and_nudge s bid acct a m =
      (true,
       { s with
          bills :=
            s.bills.map (fun x => if x.id == bid then settleBill b a else x),
          transactions := s.transactions ++
            [{ bill_id := bid, account_id := acct.id, amount_paid := a,
               payment_method := m, status := "Success" }],
          comm_logs := s.comm_logs ++
            [{ account_id := acct.id, trigger_event := settleEvent b a,
               channel := acct.comm_preference,
               message_body := settleMsg b a }] }) := by
  unfold simulate_payment_and_nudge settleBill settleEvent settleMsg
  rw [hb]
  by_cases hc : b.amount_due - a ≤ 1/100
  · simp only [if_pos hc]
  · simp only [if_neg hc]

/-- Looking the settled bill up after a successful settlement returns the
updated bill. -/
theorem getBill_simulate (s : DBState) (bid : Nat) (acct : Account) (a : ℚ)
    (m : String) (b : Bill) (hb : getBill s bid = some b) :
    getBill (simulate_payment_and_nudge s bid acct a m).2 bid =
      some (settleBill b a) := by
  rw [simulate_found s bid acct a m b hb]
  unfold getBill at hb ⊢
  have hpb : (b.id == bid) = true := by simpa using List.find?_some hb
  have hc : ((settleBill b a).id == bid) = true := by
    rw [settleBill_id]; exact hpb
  exact find?_map_update (fun x => x.id == bid) (settleBill b a) hc s.bills
    (by rw [hb]; rfl)

/-- The settled balance is never negative, whatever the amount. -/
theorem settleBill_nonneg (b : Bill) (a : ℚ) :
    0 ≤ (settleBill b a).amount_due := by
  unfold settleBill
  by_cases hc : b.amount_due - a ≤ 1/100
  · rw [if_pos hc]
  · rw [if_neg hc]
    show (0:ℚ) ≤ b.amount_due - a
    have h : (1:ℚ)/100 < b.amount_due - a := lt_of_not_le hc
    linarith

/-- A positive payment not exceeding the balance strictly decreases it. -/
theorem settleBill_amount_lt (b : Bill) (a : ℚ) (ha : 0 < a)
    (hle : a ≤ b.amount_due) : (settleBill b a).amount_due < b.amount_due := by
  unfold settleBill
  by_cases hc : b.amount_due - a ≤ 1/100
  · rw [if_pos hc]
    show (0:ℚ) < b.amount_due
    linarith
  · rw [if_neg hc]
    show b.amount_due - a < b.amount_due
    linarith

/-! ## Claims -/

/-- C1: for every existing bill and payment amount `0 < a ≤ amount_due`
applied via `simulate_payment_and_nudge`, if the remaining balance after
subtracting `a` is at most 0.01 then the bill's status is set to `"Paid"`
and its `amount_due` is set to exactly 0. -/
theorem paid_when_within_tolerance (s : DBState) (acct : Account) (bid : Nat)
    (a : ℚ) (m : String) (b : Bill) (hb : getBill s bid = some b)
    (ha : 0 < a) (hle : a ≤ b.amount_due) (htol : b.amount_due - a ≤ 1/100) :
    billStatus (simulate_payment_and_nudge s bid acct a m).2 bid =
        some "Paid" ∧
      billDue (simulate_payment_and_nudge s bid acct a m).2 bid = some 0 := by
  unfold billStatus billDue
  rw [getBill_simulate s bid acct a m b hb]
  unfold settleBill
  rw [if_pos htol]
  exact ⟨rfl, rfl⟩

/-- Witness for C1: paying the full 100 on the demo bill clears it. -/
theorem paid_when_within_tolerance_witness :
    billStatus (simulate_payment_and_nudge stateDemo 1 acctDemo 100 "Visa").2
        1 = some "Paid" ∧
      billDue (simulate_payment_and_nudge stateDemo 1 acctDemo 100 "Visa").2 1 =
        some 0 :=
  paid_when_within_tolerance stateDemo acctDemo 1 100 "Visa" billDemo rfl
    (by norm_num) (by norm_num [billDemo]) (by norm_num [billDemo])

/-- C2 counterexample: paying 99.995 of the 100 demo bill leaves a remaining
balance of 0.005, which is greater than 0, yet the status becomes `"Paid"`,
not `"Partial"`, because the code tests `<= 0.01` first. -/
theorem partial_claim_counterexample :
    (0 : ℚ) < 19999/200 ∧ (19999/200 : ℚ) ≤ billDemo.amount_due ∧
    (0 : ℚ) < billDemo.amount_due - 19999/200 ∧
    billStatus
        (simulate_payment_and_nudge stateDemo 1 acctDemo (19999/200)
          "Visa").2 1 = some "Paid" ∧
    billStatus
        (simulate_payment_and_nudge stateDemo 1 acctDemo (19999/200)
          "Visa").2 1 ≠ some "Partial" := by
  have hstat : billStatus
      (simulate_payment_and_nudge stateDemo 1 acctDemo (19999/200)
        "Visa").2 1 = some "Paid" := by
    unfold billStatus
    rw [getBill_simulate stateDemo 1 acctDemo (19999/200) "Visa" billDemo rfl]
    unfold settleBill
    rw [if_pos (by norm_num [billDemo])]
    rfl
  refine ⟨by norm_num, by norm_num [billDemo], by norm_num [billDemo],
    hstat, ?_⟩
  rw [hstat]
  simp

/-- C2 amended: for every existing bill and payment amount `0 < a ≤
amount_due` applied via `simulate_payment_and_nudge`, if the remaining
balance after subtracting `a` is greater than 0.01, the bill's status is set
to `"Partial"` (and the balance becomes exactly that remainder). -/
theorem partial_when_above_tolerance (s : DBState) (acct : Account)
    (bid : Nat) (a : ℚ) (m : String) (b : Bill) (hb : getBill s bid = some b)
    (ha : 0 < a) (hle : a ≤ b.amount_due)
    (hrem : 1/100 < b.amount_due - a) :
    billStatus (simulate_payment_and_nudge s bid acct a m).2 bid =
        some "Partial" ∧
      billDue (simulate_payment_and_nudge s bid acct a m).2 bid =
        some (b.amount_due - a) := by
  unfold billStatus billDue
  rw [getBill_simulate s bid acct a m b hb]
  unfold settleBill
  rw [if_neg (not_le.mpr hrem)]
  exact ⟨rfl, rfl⟩

/-- Witness for the amended C2: paying 50 of the 100 demo bill leaves 50
outstanding and marks the bill `"Partial"`. -/
theorem partial_when_above_tolerance_witness :
    billStatus (simulate_payment_and_nudge stateDemo 1 acctDemo 50 "Visa").2
        1 = some "Partial" ∧
      billDue (simulate_payment_and_nudge stateDemo 1 acctDemo 50 "Visa").2 1 =
        some (billDemo.amount_due - 50) :=
  partial_when_above_tolerance stateDemo acctDemo 1 50 "Visa" billDemo rfl
    (by norm_num) (by norm_num [billDemo]) (by norm_num [billDemo])

/-- Closed form of `admin_create_bill` when the account exists. -/
theorem admin_create_bill_found (s : DBState) (an : String) (oa : ℚ)
    (dd now : Nat) (adm : String) (acct : Account)
    (ha : s.accounts.find? (fun x => x.account_number == an) = some acct) :
    admin_create_bill s an oa dd adm now =
      { s with
          bills := s.bills ++
            [{ id := freshBillId s, account_id := acct.id,
               original_amount := oa, amount_due := oa, issue_date := now,
               due_date := dd, status := "Unpaid" }],
          comm_logs := s.comm_logs ++
            [{ account_id := acct.id, trigger_event := "New Bill Issued",
               channel := acct.comm_preference,
               message_body :=
                 "A new bill (ID: " ++ toString (freshBillId s) ++ ") of $" ++
                   money oa ++ " has been issued with a due date of " ++
                   toString dd ++ ". Created by Admin: " ++ adm ++
                   ". View and pay now!" }] } := by
  unfold admin_create_bill nudge_new_bill
  rw [ha]

/-- The three seeded demo bills all carry non-negative balances. -/
theorem setup_demo_data_bills (s : DBState) (h1 h2 : String) (now : Nat)
    (hd : (s.users.find? (fun u => u.username == "demo_customer")).isSome =
      false) :
    ∃ b1 b2 b3 : Bill,
      (setup_demo_data s h1 h2 now).bills = s.bills ++ [b1, b2, b3] ∧
        b1.amount_due = 311/2 ∧ b2.amount_due = 210 ∧ b3.amount_due = 0 := by
  unfold setup_demo_data
  rw [if_neg (by simp [hd])]
  exact ⟨_, _, _, rfl, rfl, rfl, rfl⟩

/-- Settling one bill of a database of non-negative balances keeps every
balance non-negative. -/
theorem billsNonneg_map_settle (s : DBState) (bid : Nat) (b : Bill) (a : ℚ)
    (hs : billsNonneg s) :
    ∀ x ∈ s.bills.map (fun y => if y.id == bid then settleBill b a else y),
      0 ≤ x.amount_due := by
  intro x hx
  rw [List.mem_map] at hx
  obtain ⟨y, hy, rfl⟩ := hx
  by_cases hid : (y.id == bid) = true
  · rw [if_pos hid]; exact settleBill_nonneg b a
  · rw [if_neg hid]; exact hs y hy

/-- Every entry point preserves non-negativity of all bill balances (the
admin route relying on its form's `NumberRange(min=0.01)` validator). -/
theorem applyOp_preserves_nonneg (s : DBState) (op : Op)
    (hs : billsNonneg s) (hv : opFormValidated op) :
    billsNonneg (applyOp s op) := by
  cases op with
  | registerOp u e f p => exact hs
  | updateProfileOp a f b c => exact hs
  | submitRequestOp a t d => exact hs
  | payBillOp acct bid amt m =>
    show billsNonneg (pay_bill s acct bid amt m).2
    unfold pay_bill
    cases hgb : getBill s bid with
    | none => exact hs
    | some bill =>
      dsimp only
      by_cases hown : bill.account_id ≠ acct.id
      · rw [if_pos hown]; exact hs
      · rw [if_neg hown]
        by_cases hpaid : bill.status = "Paid"
        · rw [if_pos hpaid]; exact hs
        · rw [if_neg hpaid]
          by_cases hamt : amt ≤ 0 ∨ bill.amount_due < amt
          · rw [if_pos hamt]; exact hs
          · rw [if_neg hamt]
            rw [simulate_found s bid acct amt m bill hgb]
            intro x hx
            exact billsNonneg_map_settle s bid bill amt hs x hx
  | adminCreateBillOp an oa dd adm now =>
    show billsNonneg (admin_create_bill s an oa dd adm now)
    cases hga : s.accounts.find? (fun x => x.account_number == an) with
    | none =>
      unfold admin_create_bill
      rw [hga]
      exact hs
    | some acct =>
      rw [admin_create_bill_found s an oa dd now adm acct hga]
      intro x hx
      have hx' : x ∈ s.bills ++
          [{ id := freshBillId s, account_id := acct.id,
             original_amount := oa, amount_due := oa, issue_date := now,
             due_date := dd, status := "Unpaid" }] := hx
      rcases List.mem_append.mp hx' with hold | hnew
      · exact hs x hold
      · have hoa : (0:ℚ) ≤ oa := by
          have : (1:ℚ)/100 ≤ oa := hv
          linarith
        rw [List.mem_singleton.mp hnew]
        exact hoa
  | setupDemoDataOp h1 h2 now =>
    show billsNonneg (setup_demo_data s h1 h2 now)
    by_cases hd : (s.users.find? (fun u => u.username == "demo_customer")).isSome
    · unfold setup_demo_data
      rw [if_pos hd]
      exact hs
    · obtain ⟨b1, b2, b3, heq, h1', h2', h3'⟩ :=
        setup_demo_data_bills s h1 h2 now (by simpa using hd)
      intro x hx
      rw [heq] at hx
      rcases List.mem_append.mp hx with hold | hnew
      · exact hs x hold
      · simp only [List.mem_cons, List.mem_singleton,
          List.not_mem_nil, or_false] at hnew
        rcases hnew with rfl | rfl | rfl
        · rw [h1']; norm_num
        · rw [h2']; norm_num
        · rw [h3']

/-- C3: for every bill with a payment amount `0 < a ≤ amount_due`,
`simulate_payment_and_nudge` strictly decreases the bill's `amount_due` and
never drives it negative; moreover `amount_due ≥ 0` is preserved by every
entry point that touches a bill. -/
theorem amount_due_decreases_and_stays_nonneg (s : DBState) (acct : Account)
    (bid : Nat) (a : ℚ) (m : String) (b : Bill) (hb : getBill s bid = some b)
    (ha : 0 < a) (hle : a ≤ b.amount_due) :
    (getBill (simulate_payment_and_nudge s bid acct a m).2 bid =
        some (settleBill b a) ∧
      (settleBill b a).amount_due < b.amount_due ∧
      0 ≤ (settleBill b a).amount_due) ∧
    ∀ (s' : DBState) (op : Op), billsNonneg s' → opFormValidated op →
      billsNonneg (applyOp s' op) := by
  refine ⟨⟨getBill_simulate s bid acct a m b hb,
    settleBill_amount_lt b a ha hle, settleBill_nonneg b a⟩, ?_⟩
  intro s' op h hv
  exact applyOp_preserves_nonneg s' op h hv

/-- Witness for C3: paying 50 of the 100 demo bill. -/
theorem amount_due_decreases_and_stays_nonneg_witness :
    (getBill (simulate_payment_and_nudge stateDemo 1 acctDemo 50 "Visa").2 1 =
        some (settleBill billDemo 50) ∧
      (settleBill billDemo 50).amount_due < billDemo.amount_due ∧
      0 ≤ (settleBill billDemo 50).amount_due) ∧
    ∀ (s' : DBState) (op : Op), billsNonneg s' → opFormValidated op →
      billsNonneg (applyOp s' op) :=
  amount_due_decreases_and_stays_nonneg stateDemo acctDemo 1 50 "Visa"
    billDemo rfl (by norm_num) (by norm_num [billDemo])

/-- C4: a successful settlement appends exactly one transaction carrying the
given bill id, the account's id, the amount and the method, and exactly one
communication log on the account's preferred channel whose trigger event is
`"Payment Success - Full"` when the bill's status becomes `"Paid"` and
`"Payment Success - Partial"` otherwise. -/
theorem settlement_appends_one_tx_and_one_log (s : DBState) (acct : Account)
    (bid : Nat) (a : ℚ) (m : String) (b : Bill)
    (hb : getBill s bid = some b) :
    ∃ log : CommunicationLog,
      (simulate_payment_and_nudge s bid acct a m).2.transactions =
        s.transactions ++
          [{ bill_id := bid, account_id := acct.id, amount_paid := a,
             payment_method := m, status := "Success" }] ∧
      (simulate_payment_and_nudge s bid acct a m).2.comm_logs =
        s.comm_logs ++ [log] ∧
      log.account_id = acct.id ∧
      log.channel = acct.comm_preference ∧
      ((billStatus (simulate_payment_and_nudge s bid acct a m).2 bid =
            some "Paid" ∧
          log.trigger_event = "Payment Success - Full") ∨
        (billStatus (simulate_payment_and_nudge s bid acct a m).2 bid ≠
            some "Paid" ∧
          log.trigger_event = "Payment Success - Partial")) := by
  have hstat : billStatus (simulate_payment_and_nudge s bid acct a m).2 bid =
      some (settleBill b a).status := by
    unfold billStatus
    rw [getBill_simulate s bid acct a m b hb]
    rfl
  refine ⟨{ account_id := acct.id, trigger_event := settleEvent b a,
            channel := acct.comm_preference, message_body := settleMsg b a },
    ?_, ?_, rfl, rfl, ?_⟩
  · rw [simulate_found s bid acct a m b hb]
  · rw [simulate_found s bid acct a m b hb]
  · by_cases hc : b.amount_due - a ≤ 1/100
    · left
      refine ⟨?_, ?_⟩
      · rw [hstat]
        unfold settleBill
        rw [if_pos hc]
      · show settleEvent b a = _
        unfold settleEvent
        rw [if_pos hc]
    · right
      refine ⟨?_, ?_⟩
      · rw [hstat]
        unfold settleBill
        rw [if_neg hc]
        simp
      · show settleEvent b a = _
        unfold settleEvent
        rw [if_neg hc]

/-- Witness for C4 at the demo state with a half payment. -/
theorem settlement_appends_one_tx_and_one_log_witness :
    ∃ log : CommunicationLog,
      (simulate_payment_and_nudge stateDemo 1 acctDemo 50
            "Visa").2.transactions =
        stateDemo.transactions ++
          [{ bill_id := 1, account_id := acctDemo.id, amount_paid := 50,
             payment_method := "Visa", status := "Success" }] ∧
      (simulate_payment_and_nudge stateDemo 1 acctDemo 50 "Visa").2.comm_logs =
        stateDemo.comm_logs ++ [log] ∧
      log.account_id = acctDemo.id ∧
      log.channel = acctDemo.comm_preference ∧
      ((billStatus (simulate_payment_and_nudge stateDemo 1 acctDemo 50
              "Visa").2 1 = some "Paid" ∧
          log.trigger_event = "Payment Success - Full") ∨
        (billStatus (simulate_payment_and_nudge stateDemo 1 acctDemo 50
              "Visa").2 1 ≠ some "Paid" ∧
          log.trigger_event = "Payment Success - Partial")) :=
  settlement_appends_one_tx_and_one_log stateDemo acctDemo 1 50 "Visa"
    billDemo rfl

/-- C5: a bill created through the admin route starts with `amount_due`
equal to `original_amount` and status `"Unpaid"`. -/
theorem created_bill_unpaid_full_amount (s : DBState) (an : String) (oa : ℚ)
    (dd now : Nat) (adm : String) (acct : Account)
    (ha : s.accounts.find? (fun x => x.account_number == an) = some acct) :
    ∃ nb : Bill,
      (admin_create_bill s an oa dd adm now).bills = s.bills ++ [nb] ∧
        nb.original_amount = oa ∧ nb.amount_due = oa ∧
        nb.status = "Unpaid" := by
  rw [admin_create_bill_found s an oa dd now adm acct ha]
  exact ⟨_, rfl, rfl, rfl, rfl⟩

/-- Witness for C5: creating a 75-dollar bill for the demo account. -/
theorem created_bill_unpaid_full_amount_witness :
    ∃ nb : Bill,
      (admin_create_bill stateDemo "A-948102" 75 40 "admin" 10).bills =
          stateDemo.bills ++ [nb] ∧
        nb.original_amount = 75 ∧ nb.amount_due = 75 ∧
        nb.status = "Unpaid" :=
  created_bill_unpaid_full_amount stateDemo "A-948102" 75 40 10 "admin"
    acctDemo rfl

/-- C6: the admin bill-creation route appends exactly one communication log
for the bill's account, with trigger event `"New Bill Issued"` and channel
equal to that account's `comm_preference`. -/
theorem created_bill_nudges_account (s : DBState) (an : String) (oa : ℚ)
    (dd now : Nat) (adm : String) (acct : Account)
    (ha : s.accounts.find? (fun x => x.account_number == an) = some acct) :
    ∃ log : CommunicationLog,
      (admin_create_bill s an oa dd adm now).comm_logs =
          s.comm_logs ++ [log] ∧
        log.account_id = acct.id ∧ log.trigger_event = "New Bill Issued" ∧
        log.channel = acct.comm_preference := by
  rw [admin_create_bill_found s an oa dd now adm acct ha]
  exact ⟨_, rfl, rfl, rfl, rfl⟩

/-- Witness for C6: creating a 75-dollar bill for the demo account. -/
theorem created_bill_nudges_account_witness :
    ∃ log : CommunicationLog,
      (admin_create_bill stateDemo "A-948102" 75 40 "admin" 10).comm_logs =
          stateDemo.comm_logs ++ [log] ∧
        log.account_id = acctDemo.id ∧ log.trigger_event = "New Bill Issued" ∧
        log.channel = acctDemo.comm_preference :=
  created_bill_nudges_account stateDemo "A-948102" 75 40 10 "admin"
    acctDemo rfl

/-- Settling the 100-dollar demo bill with 50 marks it `"Partial"` at 50. -/
theorem settleBill_demo_once :
    settleBill billDemo 50 =
      { id := 1, account_id := 1, original_amount := 100, amount_due := 50,
        issue_date := 0, due_date := 30, status := "Partial" } := by
  unfold settleBill
  rw [if_neg (by norm_num [billDemo])]
  simp [billDemo]
  norm_num

/-- Settling the half-paid demo bill with another 50 clears it. -/
theorem settleBill_demo_twice :
    settleBill
        { id := 1, account_id := 1, original_amount := 100, amount_due := 50,
          issue_date := 0, due_date := 30, status := "Partial" } 50 =
      { id := 1, account_id := 1, original_amount := 100, amount_due := 0,
        issue_date := 0, due_date := 30, status := "Paid" } := by
  unfold settleBill
  rw [if_pos (by norm_num)]

/-- C7: settlement is not idempotent.  Paying 50 on the 100-dollar demo bill
twice yields a different database state than paying it once: one more
transaction row is appended and the bill's balance drops to 0 instead
of 50. -/
theorem settlement_not_idempotent :
    (simulate_payment_and_nudge
          (simulate_payment_and_nudge stateDemo 1 acctDemo 50 "Visa").2
          1 acctDemo 50 "Visa").2 ≠
        (simulate_payment_and_nudge stateDemo 1 acctDemo 50 "Visa").2 ∧
      (simulate_payment_and_nudge
          (simulate_payment_and_nudge stateDemo 1 acctDemo 50 "Visa").2
          1 acctDemo 50 "Visa").2.transactions.length = 2 ∧
      (simulate_payment_and_nudge stateDemo 1 acctDemo 50
          "Visa").2.transactions.length = 1 ∧
      billDue (simulate_payment_and_nudge
          (simulate_payment_and_nudge stateDemo 1 acctDemo 50 "Visa").2
          1 acctDemo 50 "Visa").2 1 = some 0 ∧
      billDue (simulate_payment_and_nudge stateDemo 1 acctDemo 50 "Visa").2 1 =
        some 50 := by
  have hb0 : getBill stateDemo 1 = some billDemo := rfl
  have hb1 : getBill (simulate_payment_and_nudge stateDemo 1 acctDemo 50
      "Visa").2 1 = some (settleBill billDemo 50) :=
    getBill_simulate stateDemo 1 acctDemo 50 "Visa" billDemo hb0
  have hlen1 : (simulate_payment_and_nudge stateDemo 1 acctDemo 50
      "Visa").2.transactions.length = 1 := by
    rw [simulate_found stateDemo 1 acctDemo 50 "Visa" billDemo hb0]
    simp [stateDemo, emptyState]
  have hlen2 : (simulate_payment_and_nudge
      (simulate_payment_and_nudge stateDemo 1 acctDemo 50 "Visa").2
      1 acctDemo 50 "Visa").2.transactions.length = 2 := by
    rw [simulate_found _ 1 acctDemo 50 "Visa" (settleBill billDemo 50) hb1]
    show ((simulate_payment_and_nudge stateDemo 1 acctDemo 50
      "Visa").2.transactions ++ _).length = 2
    rw [List.length_append, hlen1]
    rfl
  have hdue1 : billDue (simulate_payment_and_nudge stateDemo 1 acctDemo 50
      "Visa").2 1 = some 50 := by
    unfold billDue
    rw [hb1, settleBill_demo_once]
    rfl
  have hdue2 : billDue (simulate_payment_and_nudge
      (simulate_payment_and_nudge stateDemo 1 acctDemo 50 "Visa").2
      1 acctDemo 50 "Visa").2 1 = some 0 := by
    unfold billDue
    rw [getBill_simulate _ 1 acctDemo 50 "Visa" (settleBill billDemo 50) hb1,
      settleBill_demo_once, settleBill_demo_twice]
    rfl
  refine ⟨?_, hlen2, hlen1, hdue2, hdue1⟩
  intro heq
  rw [heq, hlen1] at hlen2
  norm_num at hlen2

/-- C8: when the bill id does not exist, `simulate_payment_and_nudge`
returns `False` and the database state is completely unchanged — no
transaction, no communication log, no bill modification. -/
theorem missing_bill_no_change (s : DBState) (bid : Nat) (acct : Account)
    (a : ℚ) (m : String) (hb : getBill s bid = none) :
    simulate_payment_and_nudge s bid acct a m = (false, s) := by
  unfold simulate_payment_and_nudge
  rw [hb]

/-- Witness for C8: paying against an empty database. -/
theorem missing_bill_no_change_witness :
    simulate_payment_and_nudge emptyState 1 acctDemo 50 "Visa" =
      (false, emptyState) :=
  missing_bill_no_change emptyState 1 acctDemo 50 "Visa" rfl

/-- C9: the customer payment route rejects a bill already `"Paid"`, an
amount `≤ 0`, or an amount exceeding the current `amount_due`, leaving the
whole database (bills, transaction log and communication log) unchanged. -/
theorem route_rejects_invalid_payment (s : DBState) (acct : Account)
    (bid : Nat) (a : ℚ) (m : String) (b : Bill)
    (hb : getBill s bid = some b)
    (hrej : b.status = "Paid" ∨ a ≤ 0 ∨ b.amount_due < a) :
    (pay_bill s acct bid a m).1 ≠ PayResult.success ∧
      (pay_bill s acct bid a m).2 = s := by
  unfold pay_bill
  rw [hb]
  dsimp only
  by_cases hown : b.account_id ≠ acct.id
  · rw [if_pos hown]
    exact ⟨by simp, rfl⟩
  · rw [if_neg hown]
    by_cases hpaid : b.status = "Paid"
    · rw [if_pos hpaid]
      exact ⟨by simp, rfl⟩
    · rw [if_neg hpaid]
      have hamt : a ≤ 0 ∨ b.amount_due < a := by
        rcases hrej with h | h | h
        · exact absurd h hpaid
        · exact Or.inl h
        · exact Or.inr h
      rw [if_pos hamt]
      exact ⟨by simp, rfl⟩

/-- Witness for C9: a zero payment on the open demo bill is rejected. -/
theorem route_rejects_invalid_payment_witness :
    (pay_bill stateDemo acctDemo 1 0 "Visa").1 ≠ PayResult.success ∧
      (pay_bill stateDemo acctDemo 1 0 "Visa").2 = stateDemo :=
  route_rejects_invalid_payment stateDemo acctDemo 1 0 "Visa" billDemo rfl
    (Or.inr (Or.inl (by norm_num)))

/-- Each entry point only ever appends transactions with status
`"Success"`. -/
theorem applyOp_preserves_success (s : DBState) (op : Op)
    (h : ∀ t ∈ s.transactions, t.status = "Success") :
    ∀ t ∈ (applyOp s op).transactions, t.status = "Success" := by
  cases op with
  | registerOp u e f p => exact h
  | updateProfileOp a f b c => exact h
  | submitRequestOp a t d => exact h
  | payBillOp acct bid amt m =>
    show ∀ t ∈ (pay_bill s acct bid amt m).2.transactions, _
    unfold pay_bill
    cases hgb : getBill s bid with
    | none => exact h
    | some bill =>
      dsimp only
      by_cases hown : bill.account_id ≠ acct.id
      · rw [if_pos hown]; exact h
      · rw [if_neg hown]
        by_cases hpaid : bill.status = "Paid"
        · rw [if_pos hpaid]; exact h
        · rw [if_neg hpaid]
          by_cases hamt : amt ≤ 0 ∨ bill.amount_due < amt
          · rw [if_pos hamt]; exact h
          · rw [if_neg hamt]
            rw [simulate_found s bid acct amt m bill hgb]
            intro t ht
            rcases List.mem_append.mp ht with hold | hnew
            · exact h t hold
            · rw [List.mem_singleton.mp hnew]
  | adminCreateBillOp an oa dd adm now =>
    show ∀ t ∈ (admin_create_bill s an oa dd adm now).transactions, _
    cases hga : s.accounts.find? (fun x => x.account_number == an) with
    | none =>
      unfold admin_create_bill
      rw [hga]
      exact h
    | some acct =>
      rw [admin_create_bill_found s an oa dd now adm acct hga]
      exact h
  | setupDemoDataOp h1 h2 now =>
    show ∀ t ∈ (setup_demo_data s h1 h2 now).transactions, _
    unfold setup_demo_data
    by_cases hd :
      (s.users.find? (fun u => u.username == "demo_customer")).isSome
    · rw [if_pos hd]; exact h
    · rw [if_neg hd]; exact h

/-- Any run of entry points keeps every transaction at status
`"Success"`. -/
theorem foldl_preserves_success (ops : List Op) :
    ∀ s : DBState, (∀ t ∈ s.transactions, t.status = "Success") →
      ∀ t ∈ (ops.foldl applyOp s).transactions, t.status = "Success" := by
  induction ops with
  | nil => intro s h; simpa using h
  | cons op rest ih =>
    intro s h
    rw [List.foldl_cons]
    exact ih _ (applyOp_preserves_success s op h)

/-- C10: every `PaymentTransaction` ever created by any run of the
program's entry points, starting from the empty database, has status
`"Success"`; no operation can produce a `"Failed"` transaction. -/
theorem all_transactions_succeed (ops : List Op) :
    ((ops.foldl applyOp emptyState).transactions.all
      (fun t => t.status == "Success")) = true := by
  rw [List.all_eq_true]
  intro t ht
  have hstat := foldl_preserves_success ops emptyState
    (by intro t ht; simp [emptyState] at ht) t ht
  simpa using hstat
